import Mathlib

/-!
Verification of the authentication and realtime-notification core of the
ToDo backend (`unified-server.js`): the token service (`jwt.sign` /
`jwt.verify`), the `authOptional` / `authRequired` middleware, the task
endpoints and their event emissions, registration and password reset, and
the socket `authenticate` handler with per-user broadcast rooms.
-/

namespace TodoBackend

/-! ### Decimal rendering

JS template literals (`user-${id}`) render numbers in decimal.  We give a
fuel-based renderer (kernel-reducible) together with a round-trip decoder,
from which injectivity of room names follows. -/

/-- The character for one decimal digit. -/
def digitChar : Nat → Char
  | 0 => '0'
  | 1 => '1'
  | 2 => '2'
  | 3 => '3'
  | 4 => '4'
  | 5 => '5'
  | 6 => '6'
  | 7 => '7'
  | 8 => '8'
  | 9 => '9'
  | _ => '*'

/-- Little-endian decimal digits of `n`; any `fuel ≥ n` gives all digits. -/
def digitsLE : Nat → Nat → List Nat
  | 0, _ => []
  | fuel + 1, n => if n = 0 then [] else n % 10 :: digitsLE fuel (n / 10)

/-- Decode a little-endian digit list back to a number. -/
def ofDigitsLE : List Nat → Nat
  | [] => 0
  | d :: l => d + 10 * ofDigitsLE l

/-- The decimal string of a natural number, as produced by JS string
interpolation. -/
def natToDecimal (n : Nat) : String :=
  if n = 0 then "0" else String.mk (((digitsLE n n).map digitChar).reverse)

/-- The broadcast room for a user: the string `user-${userId}`. -/
def roomName (userId : Nat) : String :=
  "user-" ++ natToDecimal userId

/-- Whether a character sequence starts with the segment `pat`. -/
def startsWithSeg : List Char → List Char → Bool
  | _, [] => true
  | [], _ :: _ => false
  | c :: cs, p :: ps => c = p && startsWithSeg cs ps

/-- Whether `pat` occurs as a contiguous segment of `s`. -/
def containsSeg : List Char → List Char → Bool
  | [], pat => pat.isEmpty
  | c :: cs, pat => startsWithSeg (c :: cs) pat || containsSeg cs pat

/-! ### Token service (`jsonwebtoken`) -/

/-- A JWT claim set as signed by this server: `{ userId, username }` plus the
expiry timestamp (seconds). -/
structure Payload where
  userId : Nat
  username : String
  exp : Nat
deriving DecidableEq, Repr

/-- A bearer-token string, classified by its JWT structure: `signed p s` is a
structurally valid JWT over payload `p` signed with secret `s`; `malformed`
is a string that is not a structurally valid signed JWT (`JsonWebTokenError`);
`undecodable` is a token on which verification fails for a reason that is
neither expiry nor structure/signature (the final `else` of the middleware's
catch). -/
inductive TokenStr where
  | signed (p : Payload) (secret : String)
  | malformed (raw : String)
  | undecodable (raw : String)
deriving DecidableEq, Repr

/-- The error classes thrown by `jwt.verify`. -/
inductive VerifyError where
  | tokenExpired
  | jsonWebToken
  | unexpected
deriving DecidableEq, Repr

/-- `jwt.verify(token, secret)` evaluated at time `now` (seconds): structure
and signature are checked first; a valid signature whose `exp` has been
reached throws `TokenExpiredError`. -/
def jwtVerify (tok : TokenStr) (secret : String) (now : Nat) :
    Except VerifyError Payload :=
  match tok with
  | .malformed _ => .error .jsonWebToken
  | .undecodable _ => .error .unexpected
  | .signed p s =>
    if s = secret then
      if p.exp ≤ now then .error .tokenExpired else .ok p
    else .error .jsonWebToken

/-- Seven days in seconds (`expiresIn: "7d"`). -/
def sevenDays : Nat := 7 * 24 * 60 * 60

/-- `jwt.sign({ userId, username }, secret, { expiresIn: "7d" })` at time
`now`. -/
def jwtSign (userId : Nat) (username : String) (secret : String) (now : Nat) :
    TokenStr :=
  .signed ⟨userId, username, now + sevenDays⟩ secret

/-! ### Auth middleware -/

/-- The resolved request identity `req.user = { id, username }`. -/
structure Identity where
  id : Nat
  username : String
deriving DecidableEq, Repr

/-- Bearer extraction from the `authorization` header:
`auth.startsWith("Bearer ") ? auth.slice(7) : null` (missing header treated
as the empty string; 7 is the length of the prefix sliced off), combined
with the falsiness guard both middlewares apply to the result —
`if (!token)` in `authRequired`, `if (token)` in `authOptional` — under
which the empty credential of the bare header `Bearer ` counts as no token
just like `null`. -/
def extractBearer (authHeader : Option String) : Option String :=
  let auth := authHeader.getD ""
  if startsWithSeg auth.data "Bearer ".data then
    if (auth.data.drop 7).isEmpty then none
    else some (String.mk (auth.data.drop 7))
  else none

/-- An HTTP error response: status code plus the `{ error, message }` body. -/
structure ErrorResponse where
  status : Nat
  error : String
  message : Option String
deriving DecidableEq, Repr

/-- Outcome of the `authRequired` middleware: a 401 rejection, or the
identity attached to the request before the handler runs. -/
inductive AuthDecision where
  | reject (r : ErrorResponse)
  | proceed (user : Identity)
deriving DecidableEq, Repr

/-- The `authRequired` middleware.  `decode` models JWT parsing of the raw
extracted header string into a classified token.  The payload check mirrors
`!payload || !payload.userId` (a `Nat` field is falsy exactly when 0). -/
def authRequired (decode : String → TokenStr) (secret : String) (now : Nat)
    (authHeader : Option String) : AuthDecision :=
  match extractBearer authHeader with
  | none => .reject ⟨401, "Unauthorized", some "No token provided"⟩
  | some raw =>
    match jwtVerify (decode raw) secret now with
    | .ok p =>
      if p.userId = 0 then
        .reject ⟨401, "Invalid token", some "Token payload is invalid"⟩
      else
        .proceed ⟨p.userId, p.username⟩
    | .error .tokenExpired =>
      .reject ⟨401, "Token expired", some "Please login again"⟩
    | .error .jsonWebToken =>
      .reject ⟨401, "Invalid token", some "Token is malformed"⟩
    | .error .unexpected =>
      .reject ⟨401, "Invalid token", some "Token verification failed"⟩

/-- The `authOptional` middleware: attaches the identity on successful
verification, `none` on any failure; never rejects. -/
def authOptional (decode : String → TokenStr) (secret : String) (now : Nat)
    (authHeader : Option String) : Option Identity :=
  match extractBearer authHeader with
  | none => none
  | some raw =>
    match jwtVerify (decode raw) secret now with
    | .ok p => some ⟨p.userId, p.username⟩
    | .error _ => none

/-! ### Tasks: data model -/

/-- A row of the `tasks` table.  `user_id` is nullable (the column was added
by migration without a backfill); timestamps are seconds. -/
structure Task where
  id : Nat
  title : String
  status : String
  description : Option String
  priority : String
  due_date : Option String
  due_time : Option String
  category : String
  type : String
  project_id : Option Nat
  important : Bool
  assigned_to : Option String
  user_id : Option Nat
  created_at : Nat
  updated_at : Nat
deriving DecidableEq, Repr

/-- The `tasks` table plus its `SERIAL` id sequence. -/
structure TaskStore where
  rows : List Task
  nextId : Nat
deriving DecidableEq, Repr

/-! ### `GET /tasks` -/

/-- Query parameters of `GET /tasks`; `none` is an absent parameter.
`project_id` holds the numeric value the text parameter is cast to. -/
structure TasksQuery where
  status : Option String := none
  priority : Option String := none
  category : Option String := none
  type : Option String := none
  project_id : Option Nat := none
  important : Option String := none
  q : Option String := none
  sort : Option String := none
  order : Option String := none
deriving DecidableEq, Repr

/-- `col ILIKE '%pat%'`: case-insensitive substring containment. -/
def ilikeContains (s pat : String) : Bool :=
  containsSeg s.toLower.data pat.toLower.data

/-- The WHERE clause built by `GET /tasks`: the `user_id` conjunct is added
only when `req.user` is attached; each filter is added only when the
parameter is truthy (present and nonempty), `important` only for the four
recognised spellings. -/
def matchesQuery (user : Option Identity) (qp : TasksQuery) (t : Task) : Bool :=
  (match user with
   | some u => t.user_id = some u.id
   | none => true) &&
  (match qp.status with
   | some s => if s = "" then true else t.status = s
   | none => true) &&
  (match qp.priority with
   | some p => if p = "" then true else t.priority = p
   | none => true) &&
  (match qp.category with
   | some c => if c = "" then true else t.category = c
   | none => true) &&
  (match qp.type with
   | some ty => if ty = "" then true else t.type = ty
   | none => true) &&
  (match qp.project_id with
   | some pid => t.project_id = some pid
   | none => true) &&
  (match qp.important with
   | some v =>
     if v.toLower = "true" ∨ v.toLower = "1" then t.important = true
     else if v.toLower = "false" ∨ v.toLower = "0" then t.important = false
     else true
   | none => true) &&
  (match qp.q with
   | some pat =>
     if pat = "" then true
     else ilikeContains t.title pat || ilikeContains (t.description.getD "") pat
   | none => true)

/-- The sort columns accepted by `GET /tasks`. -/
def allowedSort : List String :=
  ["id", "title", "status", "priority", "category", "type", "due_date",
   "due_time", "project_id", "created_at", "updated_at"]

/-- `ORDER BY` comparison on a nullable integer column, `ASC` with SQL's
default NULLS LAST. -/
def optNatLe : Option Nat → Option Nat → Bool
  | none, none => true
  | none, some _ => false
  | some _, none => true
  | some x, some y => x ≤ y

/-- `ORDER BY` comparison on a nullable text column, `ASC` NULLS LAST. -/
def optStrLe : Option String → Option String → Bool
  | none, none => true
  | none, some _ => false
  | some _, none => true
  | some x, some y => x ≤ y

/-- Ascending comparison of two task rows on one sort column (falling back to
`id`, the validated default). -/
def taskFieldLe (key : String) (a b : Task) : Bool :=
  if key = "title" then a.title ≤ b.title
  else if key = "status" then a.status ≤ b.status
  else if key = "priority" then a.priority ≤ b.priority
  else if key = "category" then a.category ≤ b.category
  else if key = "type" then a.type ≤ b.type
  else if key = "due_date" then optStrLe a.due_date b.due_date
  else if key = "due_time" then optStrLe a.due_time b.due_time
  else if key = "project_id" then optNatLe a.project_id b.project_id
  else if key = "created_at" then a.created_at ≤ b.created_at
  else if key = "updated_at" then a.updated_at ≤ b.updated_at
  else a.id ≤ b.id

/-- The ORDER BY comparison of `GET /tasks`: the requested sort column is
validated against `allowedSort` (falling back to `id`); any order other
than `desc` (case-insensitively) is `ASC`. -/
def taskSortLe (qp : TasksQuery) (a b : Task) : Bool :=
  let requested := qp.sort.getD "id"
  let sortBy := if allowedSort.contains requested then requested else "id"
  let desc := (qp.order.getD "asc").toLower = "desc"
  if desc then taskFieldLe sortBy b a else taskFieldLe sortBy a b

/-- The `GET /tasks` handler: WHERE filters (scoped to the attached identity
when present) followed by the validated ORDER BY. -/
def getTasks (user : Option Identity) (qp : TasksQuery) (store : TaskStore) :
    List Task :=
  (store.rows.filter (matchesQuery user qp)).mergeSort (taskSortLe qp)

/-- The full `GET /tasks` route: `authOptional`, then the handler. -/
def getTasksRoute (decode : String → TokenStr) (secret : String) (now : Nat)
    (authHeader : Option String) (qp : TasksQuery) (store : TaskStore) :
    List Task :=
  getTasks (authOptional decode secret now authHeader) qp store

/-! ### Mutating task endpoints and their event emissions -/

/-- A payload delivered with a socket event. -/
inductive EventPayload where
  | task (t : Task)
  | deletedId (id : Nat)
  | ok
  | err (msg : String)
deriving DecidableEq, Repr

/-- One `io.to(room).emit(event, payload)` broadcast. -/
structure Emission where
  room : String
  event : String
  payload : EventPayload
deriving DecidableEq, Repr

/-- The HTTP response of a task endpoint. -/
inductive TaskResponse where
  | task (t : Task)
  | success
  | failure (status : Nat) (error : String)
deriving DecidableEq, Repr

/-- Body of `POST /tasks`; `none` is an absent (undefined/null) field, folded
by `??` into the column default. -/
structure CreateTaskBody where
  title : Option String := none
  status : Option String := none
  description : Option String := none
  priority : Option String := none
  due_date : Option String := none
  due_time : Option String := none
  category : Option String := none
  type : Option String := none
  project_id : Option Nat := none
  important : Option Bool := none
  assigned_to : Option String := none
deriving DecidableEq, Repr

/-- `POST /tasks`: validates the title, inserts the row with column defaults
and `user_id = req.user.id`, then emits one `task_created` into the acting
user's room. -/
def createTask (u : Identity) (body : CreateTaskBody) (now : Nat)
    (store : TaskStore) : TaskStore × TaskResponse × List Emission :=
  match body.title with
  | none => (store, .failure 400 "Title is required", [])
  | some ttl =>
    if ttl.trim = "" then (store, .failure 400 "Title is required", [])
    else
      let t : Task :=
        { id := store.nextId
          title := ttl.trim
          status := body.status.getD "pending"
          description := body.description
          priority := body.priority.getD "medium"
          due_date := body.due_date
          due_time := body.due_time
          category := body.category.getD "own"
          type := body.type.getD "work"
          project_id := body.project_id
          important := body.important.getD false
          assigned_to := body.assigned_to
          user_id := some u.id
          created_at := now
          updated_at := now }
      (⟨store.rows ++ [t], store.nextId + 1⟩, .task t,
       [⟨roomName u.id, "task_created", .task t⟩])

/-- Body of `PUT /tasks/:id`: the outer option is field presence
(`!== undefined`); for nullable columns the inner option distinguishes an
explicit `null` from a value. -/
structure UpdateTaskBody where
  title : Option String := none
  status : Option String := none
  description : Option (Option String) := none
  priority : Option String := none
  due_date : Option (Option String) := none
  due_time : Option (Option String) := none
  category : Option String := none
  type : Option String := none
  project_id : Option (Option Nat) := none
  important : Option Bool := none
  assigned_to : Option (Option String) := none
deriving DecidableEq, Repr

/-- Whether every updatable field is absent (`Nothing to update`). -/
def UpdateTaskBody.isEmpty (b : UpdateTaskBody) : Bool :=
  b.title.isNone && b.status.isNone && b.description.isNone &&
  b.priority.isNone && b.due_date.isNone && b.due_time.isNone &&
  b.category.isNone && b.type.isNone && b.project_id.isNone &&
  b.important.isNone && b.assigned_to.isNone

/-- Apply the dynamic `SET` list of `PUT /tasks/:id` to one row
(`updated_at = NOW()` always included). -/
def applyPatch (b : UpdateTaskBody) (now : Nat) (t : Task) : Task :=
  { t with
    title := b.title.getD t.title
    status := b.status.getD t.status
    description := b.description.getD t.description
    priority := b.priority.getD t.priority
    due_date := b.due_date.getD t.due_date
    due_time := b.due_time.getD t.due_time
    category := b.category.getD t.category
    type := b.type.getD t.type
    project_id := b.project_id.getD t.project_id
    important := b.important.getD t.important
    assigned_to := b.assigned_to.getD t.assigned_to
    updated_at := now }

/-- `PUT /tasks/:id`: `UPDATE ... WHERE id = $ AND user_id = $ RETURNING *`;
404 when no row matched, otherwise one `task_updated` into the acting user's
room with the updated row. -/
def updateTask (u : Identity) (id : Nat) (body : UpdateTaskBody) (now : Nat)
    (store : TaskStore) : TaskStore × TaskResponse × List Emission :=
  if body.isEmpty then (store, .failure 400 "Nothing to update", [])
  else
    match store.rows.find? (fun t => t.id = id && t.user_id = some u.id) with
    | none => (store, .failure 404 "Task not found", [])
    | some t =>
      let t' := applyPatch body now t
      (⟨store.rows.map (fun x =>
          if x.id = id && x.user_id = some u.id then applyPatch body now x
          else x),
        store.nextId⟩,
       .task t', [⟨roomName u.id, "task_updated", .task t'⟩])

/-- `DELETE /tasks/:id`: `DELETE ... WHERE id = $ AND user_id = $`; 404 when
no row matched, otherwise one `task_deleted` with the id. -/
def deleteTask (u : Identity) (id : Nat) (store : TaskStore) :
    TaskStore × TaskResponse × List Emission :=
  let remaining := store.rows.filter
    (fun t => !(t.id = id && t.user_id = some u.id))
  if remaining.length = store.rows.length then
    (store, .failure 404 "Task not found", [])
  else
    (⟨remaining, store.nextId⟩, .success,
     [⟨roomName u.id, "task_deleted", .deletedId id⟩])

/-- `POST /tasks/clear-completed`: deletes the acting user's done tasks;
emits nothing. -/
def clearCompleted (u : Identity) (store : TaskStore) :
    TaskStore × TaskResponse × List Emission :=
  (⟨store.rows.filter (fun t => !(t.status = "done" && t.user_id = some u.id)),
    store.nextId⟩, .success, [])

/-- `POST /tasks/mark-all-done`: marks the acting user's unfinished tasks as
done; emits nothing. -/
def markAllDone (u : Identity) (now : Nat) (store : TaskStore) :
    TaskStore × TaskResponse × List Emission :=
  (⟨store.rows.map (fun t =>
      if !(t.status = "done") && t.user_id = some u.id then
        { t with status := "done", updated_at := now }
      else t),
    store.nextId⟩, .success, [])

/-- The mutating task operations, for quantifying over "any mutating task
operation". -/
inductive TaskOp where
  | create (body : CreateTaskBody)
  | update (id : Nat) (body : UpdateTaskBody)
  | delete (id : Nat)
  | clearCompleted
  | markAllDone
deriving DecidableEq, Repr

/-- Dispatch a mutating task operation for the authenticated identity. -/
def runTaskOp (u : Identity) (now : Nat) (op : TaskOp) (store : TaskStore) :
    TaskStore × TaskResponse × List Emission :=
  match op with
  | .create body => createTask u body now store
  | .update id body => updateTask u id body now store
  | .delete id => deleteTask u id store
  | .clearCompleted => clearCompleted u store
  | .markAllDone => markAllDone u now store

/-- A mutating task route end to end: the `authRequired` middleware gates the
handler; a rejection sends the 401 and touches neither the store nor the
socket layer. -/
def runTaskRoute (decode : String → TokenStr) (secret : String) (now : Nat)
    (authHeader : Option String) (op : TaskOp) (store : TaskStore) :
    TaskStore × TaskResponse × List Emission :=
  match authRequired decode secret now authHeader with
  | .reject r => (store, .failure r.status r.error, [])
  | .proceed u => runTaskOp u now op store

/-! ### Realtime connections (`socket.io`) -/

/-- A realtime connection: the broadcast rooms it has joined. -/
structure Conn where
  rooms : List String := []
deriving DecidableEq, Repr

/-- `socket.join(room)`: adds the socket to the room; a repeated join is a
no-op. -/
def joinRoom (c : Conn) (room : String) : Conn :=
  if c.rooms.contains room then c else ⟨c.rooms ++ [room]⟩

/-- One `socket.emit(event, payload)` acknowledgement to a single socket. -/
structure SelfEmit where
  event : String
  payload : EventPayload
deriving DecidableEq, Repr

/-- Result of handling one `authenticate` message: the connection's new room
state, the acknowledgements sent to this socket only, any broadcast
emissions (`io.to` — the handler performs none), and whether the server
closed the socket (it never does). -/
structure AuthenticateOutcome where
  conn : Conn
  selfEmits : List SelfEmit
  broadcasts : List Emission
  disconnected : Bool
deriving DecidableEq, Repr

/-- The `socket.on("authenticate")` handler: on successful verification join
`user-${payload.userId}` and acknowledge `authenticated { ok: true }`; on
any failure acknowledge `auth_error` and leave everything unchanged. -/
def authenticateHandler (decode : String → TokenStr) (secret : String)
    (now : Nat) (c : Conn) (tokenStr : String) : AuthenticateOutcome :=
  match jwtVerify (decode tokenStr) secret now with
  | .ok p => ⟨joinRoom c (roomName p.userId), [⟨"authenticated", .ok⟩], [], false⟩
  | .error _ => ⟨c, [⟨"auth_error", .err "Invalid token"⟩], [], false⟩

/-- Run a sequence of `authenticate` messages on one connection. -/
def runAuthSeq (decode : String → TokenStr) (secret : String) (now : Nat)
    (c : Conn) : List String → Conn
  | [] => c
  | tk :: rest =>
    runAuthSeq decode secret now
      (authenticateHandler decode secret now c tk).conn rest

/-- Whether a broadcast emission reaches a connection: `io.to(room)` delivers
to exactly the sockets that joined `room`. -/
def receives (c : Conn) (e : Emission) : Bool :=
  c.rooms.contains e.room

/-! ### Users: registration and password reset -/

/-- A row of the `users` table (columns this core reads and writes). -/
structure User where
  id : Nat
  username : String
  password_hash : String
  is_verified : Bool
deriving DecidableEq, Repr

/-- The `users` table plus its `SERIAL` id sequence. -/
structure UserStore where
  users : List User
  nextId : Nat
deriving DecidableEq, Repr

/-- Model of `bcrypt.hash(password, cost)`: a deterministic stand-in
recording cost and password.  No verified property relies on one-wayness. -/
def bcryptHash (password : String) (cost : Nat) : String :=
  "bcrypt$" ++ natToDecimal cost ++ "$" ++ password

/-- Model of `bcrypt.compare(password, hash)`. -/
def bcryptCompare (password hash : String) : Bool :=
  hash = bcryptHash password 10

/-- The HTTP response of `POST /auth/register`. -/
inductive RegisterResult where
  | ok (token : TokenStr) (user : User)
  | err (status : Nat) (error : String)
deriving DecidableEq, Repr

/-- `POST /auth/register`: validation, `bcrypt.hash(password, 10)`, insert
(with `is_verified = TRUE`), then `jwt.sign` over the new row.  A duplicate
username violates `users_username_key` and is mapped to 409. -/
def registerUser (store : UserStore) (username password : Option String)
    (secret : String) (now : Nat) : UserStore × RegisterResult :=
  match username, password with
  | none, _ => (store, .err 400 "Username and password are required")
  | some _, none => (store, .err 400 "Username and password are required")
  | some un, some pw =>
    if un = "" ∨ pw = "" then
      (store, .err 400 "Username and password are required")
    else if un.length < 3 then
      (store, .err 400 "Username must be at least 3 characters")
    else if pw.length < 6 then
      (store, .err 400 "Password must be at least 6 characters")
    else if store.users.any (fun u => u.username = un) then
      (store, .err 409 "Username already exists")
    else
      let user : User := ⟨store.nextId, un, bcryptHash pw 10, true⟩
      (⟨store.users ++ [user], store.nextId + 1⟩,
       .ok (jwtSign user.id user.username secret now) user)

/-- The HTTP response of `POST /auth/reset-password`. -/
inductive ResetResult where
  | ok
  | err (status : Nat) (error : String)
deriving DecidableEq, Repr

/-- `POST /auth/reset-password`: the route is registered with no auth
middleware; `authHeader` is accepted and ignored, mirroring that the handler
never reads credentials.  It looks the user up by username alone and
replaces the password hash. -/
def resetPassword (store : UserStore) (_authHeader : Option String)
    (username newPassword : Option String) : UserStore × ResetResult :=
  match username, newPassword with
  | none, _ => (store, .err 400 "Username and new password are required")
  | some _, none => (store, .err 400 "Username and new password are required")
  | some un, some np =>
    if un = "" ∨ np = "" then
      (store, .err 400 "Username and new password are required")
    else if np.length < 6 then
      (store, .err 400 "Password must be at least 6 characters")
    else if store.users.any (fun u => u.username = un) then
      (⟨store.users.map (fun u =>
          if u.username = un then { u with password_hash := bcryptHash np 10 }
          else u),
        store.nextId⟩, .ok)
    else (store, .err 404 "User not found")

/-! ### Sample environment (used by concrete witnesses) -/

/-- A concrete JWT decoder: two well-signed tokens for users 1 and 2, one
undecodable string, everything else malformed. -/
def sampleDecode : String → TokenStr := fun s =>
  if s = "tokA" then .signed ⟨1, "alice", 100⟩ "secret"
  else if s = "tokB" then .signed ⟨2, "bob", 100⟩ "secret"
  else if s = "weird" then .undecodable s
  else .malformed s

/-- A task row owned by user 1. -/
def taskA : Task :=
  { id := 1, title := "a", status := "done", description := none,
    priority := "medium", due_date := none, due_time := none,
    category := "own", type := "work", project_id := none,
    important := false, assigned_to := none, user_id := some 1,
    created_at := 0, updated_at := 0 }

/-- A task row owned by user 2. -/
def taskB : Task :=
  { id := 2, title := "b", status := "pending", description := none,
    priority := "medium", due_date := none, due_time := none,
    category := "own", type := "work", project_id := none,
    important := false, assigned_to := none, user_id := some 2,
    created_at := 0, updated_at := 0 }

/-- A store holding one task of user 1 and one of user 2. -/
def sampleStore : TaskStore := ⟨[taskA, taskB], 3⟩

/-! ## Helper lemmas -/

/-- Decoding the rendered digits recovers the number. -/
theorem ofDigitsLE_digitsLE : ∀ (fuel n : Nat), n ≤ fuel →
    ofDigitsLE (digitsLE fuel n) = n := by
  intro fuel
  induction fuel with
  | zero =>
    intro n hn
    have : n = 0 := Nat.le_zero.mp hn
    subst this
    rfl
  | succ f ih =>
    intro n hn
    by_cases h0 : n = 0
    · subst h0; simp [digitsLE, ofDigitsLE]
    · have hdiv : n / 10 ≤ f := by
        have : n / 10 < n := Nat.div_lt_self (Nat.pos_of_ne_zero h0) (by omega)
        omega
      simp only [digitsLE, h0, if_false, ofDigitsLE, ih _ hdiv]
      omega

/-- Every rendered digit is a decimal digit. -/
theorem digitsLE_lt_ten : ∀ (fuel n : Nat), ∀ d ∈ digitsLE fuel n, d < 10 := by
  intro fuel
  induction fuel with
  | zero => intro n d hd; simp [digitsLE] at hd
  | succ f ih =>
    intro n d hd
    by_cases h0 : n = 0
    · subst h0; simp [digitsLE] at hd
    · simp only [digitsLE, h0, if_false, List.mem_cons] at hd
      rcases hd with h | h
      · subst h; exact Nat.mod_lt _ (by omega)
      · exact ih _ _ h

/-- `digitChar` is injective on decimal digits. -/
theorem digitChar_inj_lt : ∀ x < 10, ∀ y < 10, digitChar x = digitChar y → x = y := by
  decide

/-- Mapping `digitChar` over digit lists is injective. -/
theorem map_digitChar_inj : ∀ (l₁ l₂ : List Nat),
    (∀ d ∈ l₁, d < 10) → (∀ d ∈ l₂, d < 10) →
    l₁.map digitChar = l₂.map digitChar → l₁ = l₂ := by
  intro l₁
  induction l₁ with
  | nil => intro l₂ _ _ h; cases l₂ <;> simp_all
  | cons a l ih =>
    intro l₂ h1 h2 h
    cases l₂ with
    | nil => simp at h
    | cons b m =>
      simp only [List.map_cons, List.cons.injEq] at h
      obtain ⟨hab, hlm⟩ := h
      have ha : a < 10 := h1 a (List.mem_cons_self _ _)
      have hb : b < 10 := h2 b (List.mem_cons_self _ _)
      have hab' : a = b := digitChar_inj_lt a ha b hb hab
      subst hab'
      have : l = m := ih m (fun d hd => h1 d (List.mem_cons_of_mem _ hd))
        (fun d hd => h2 d (List.mem_cons_of_mem _ hd)) hlm
      rw [this]

/-- Decimal rendering is injective. -/
theorem natToDecimal_inj {m n : Nat} (h : natToDecimal m = natToDecimal n) :
    m = n := by
  by_cases hm : m = 0 <;> by_cases hn : n = 0
  · omega
  · exfalso
    rw [natToDecimal, natToDecimal, if_pos hm, if_neg hn] at h
    have hdata : ('0' :: []) = ((digitsLE n n).map digitChar).reverse :=
      congrArg String.data h
    have hrev : (digitsLE n n).map digitChar = ['0'] := by
      have := congrArg List.reverse hdata
      simpa using this.symm
    have hdig : digitsLE n n = [0] := by
      refine map_digitChar_inj _ [0] (digitsLE_lt_ten n n) ?_ ?_
      · intro d hd; simp at hd; omega
      · simpa using hrev
    have hof := ofDigitsLE_digitsLE n n (Nat.le_refl n)
    rw [hdig] at hof
    simp [ofDigitsLE] at hof
    omega
  · exfalso
    rw [natToDecimal, natToDecimal, if_neg hm, if_pos hn] at h
    have hdata : ((digitsLE m m).map digitChar).reverse = ('0' :: []) :=
      congrArg String.data h
    have hrev : (digitsLE m m).map digitChar = ['0'] := by
      have := congrArg List.reverse hdata
      simpa using this
    have hdig : digitsLE m m = [0] := by
      refine map_digitChar_inj _ [0] (digitsLE_lt_ten m m) ?_ ?_
      · intro d hd; simp at hd; omega
      · simpa using hrev
    have hof := ofDigitsLE_digitsLE m m (Nat.le_refl m)
    rw [hdig] at hof
    simp [ofDigitsLE] at hof
    omega
  · rw [natToDecimal, natToDecimal, if_neg hm, if_neg hn] at h
    have hdata : ((digitsLE m m).map digitChar).reverse
        = ((digitsLE n n).map digitChar).reverse :=
      congrArg String.data h
    have hmap : (digitsLE m m).map digitChar = (digitsLE n n).map digitChar :=
      List.reverse_inj.mp hdata
    have hdig : digitsLE m m = digitsLE n n :=
      map_digitChar_inj _ _ (digitsLE_lt_ten m m) (digitsLE_lt_ten n n) hmap
    have h1 := ofDigitsLE_digitsLE m m (Nat.le_refl m)
    have h2 := ofDigitsLE_digitsLE n n (Nat.le_refl n)
    rw [hdig] at h1
    omega

/-- Appending a fixed prefix to strings is injective. -/
theorem string_append_cancel_left {p s t : String} (h : p ++ s = p ++ t) :
    s = t := by
  obtain ⟨pd⟩ := p
  obtain ⟨sd⟩ := s
  obtain ⟨td⟩ := t
  have h2 : String.mk (pd ++ sd) = String.mk (pd ++ td) := h
  have h3 : pd ++ sd = pd ++ td := congrArg String.data h2
  have := List.append_cancel_left h3
  rw [this]

/-- Distinct user ids name distinct broadcast rooms. -/
theorem roomName_inj {a b : Nat} (h : roomName a = roomName b) : a = b := by
  rw [roomName, roomName] at h
  exact natToDecimal_inj (string_append_cancel_left h)

/-! ## Claim theorems -/

/-- C4: Token round trip: verifying the token issued for `(u, n)` with the
issuing secret yields exactly the payload with `userId = u` and
`username = n` at any time within 7 days of issuance; once the 7 days have
elapsed, verification yields the `Expired` error. -/
theorem claim_C4_token_round_trip (u : Nat) (n secret : String) (iat t : Nat) :
    (t < iat + sevenDays →
      jwtVerify (jwtSign u n secret iat) secret t
        = .ok ⟨u, n, iat + sevenDays⟩) ∧
    (iat + sevenDays ≤ t →
      jwtVerify (jwtSign u n secret iat) secret t
        = .error .tokenExpired) := by
  constructor
  · intro h
    show (if secret = secret then
            if iat + sevenDays ≤ t then Except.error VerifyError.tokenExpired
            else Except.ok (Payload.mk u n (iat + sevenDays))
          else Except.error VerifyError.jsonWebToken)
        = Except.ok (Payload.mk u n (iat + sevenDays))
    rw [if_pos rfl, if_neg (by omega)]
  · intro h
    show (if secret = secret then
            if iat + sevenDays ≤ t then Except.error VerifyError.tokenExpired
            else Except.ok (Payload.mk u n (iat + sevenDays))
          else Except.error VerifyError.jsonWebToken)
        = Except.error VerifyError.tokenExpired
    rw [if_pos rfl, if_pos h]

/-- Witness for C4 at concrete inputs: user 1, "alice", issued at 0, checked
at 50 (inside the window) and at exactly seven days (expired). -/
theorem claim_C4_token_round_trip_witness :
    ((50 : Nat) < 0 + sevenDays ∧
      jwtVerify (jwtSign 1 "alice" "secret" 0) "secret" 50
        = .ok ⟨1, "alice", 0 + sevenDays⟩) ∧
    ((0 : Nat) + sevenDays ≤ sevenDays ∧
      jwtVerify (jwtSign 1 "alice" "secret" 0) "secret" sevenDays
        = .error .tokenExpired) :=
  ⟨⟨by decide, (claim_C4_token_round_trip 1 "alice" "secret" 0 50).1 (by decide)⟩,
   ⟨by decide, (claim_C4_token_round_trip 1 "alice" "secret" 0 sevenDays).2 (by decide)⟩⟩

/-- C3: `authRequired` error mapping: no bearer token yields 401
Unauthorized; a token well-signed for the server secret whose expiry has
passed yields the distinct 401 Token expired; a malformed token yields 401
Invalid token, as does any other verification failure (with a distinct
message); the identity is attached and the handler run only after successful
verification; and the three verification error kinds map to pairwise
distinct caller-visible responses. -/
theorem claim_C3_authRequired_error_mapping
    (decode : String → TokenStr) (secret : String) (now : Nat) :
    (∀ h, extractBearer h = none →
      authRequired decode secret now h
        = .reject ⟨401, "Unauthorized", some "No token provided"⟩) ∧
    (∀ h raw p, extractBearer h = some raw →
      decode raw = .signed p secret → p.exp ≤ now →
      authRequired decode secret now h
        = .reject ⟨401, "Token expired", some "Please login again"⟩) ∧
    (∀ h raw, extractBearer h = some raw →
      jwtVerify (decode raw) secret now = .error .jsonWebToken →
      authRequired decode secret now h
        = .reject ⟨401, "Invalid token", some "Token is malformed"⟩) ∧
    (∀ h raw, extractBearer h = some raw →
      jwtVerify (decode raw) secret now = .error .unexpected →
      authRequired decode secret now h
        = .reject ⟨401, "Invalid token", some "Token verification failed"⟩) ∧
    (∀ h u, authRequired decode secret now h = .proceed u →
      ∃ raw p, extractBearer h = some raw ∧
        jwtVerify (decode raw) secret now = .ok p ∧
        u = ⟨p.userId, p.username⟩) ∧
    ((⟨401, "Token expired", some "Please login again"⟩ : ErrorResponse)
        ≠ ⟨401, "Invalid token", some "Token is malformed"⟩ ∧
      (⟨401, "Token expired", some "Please login again"⟩ : ErrorResponse)
        ≠ ⟨401, "Invalid token", some "Token verification failed"⟩ ∧
      (⟨401, "Invalid token", some "Token is malformed"⟩ : ErrorResponse)
        ≠ ⟨401, "Invalid token", some "Token verification failed"⟩) := by
  refine ⟨?_, ?_, ?_, ?_, ?_, by decide⟩
  · intro h hh
    simp [authRequired, hh]
  · intro h raw p hh hd hexp
    simp [authRequired, hh, jwtVerify, hd, hexp]
  · intro h raw hh hv
    simp [authRequired, hh, hv]
  · intro h raw hh hv
    simp [authRequired, hh, hv]
  · intro h u hu
    rcases heb : extractBearer h with _ | raw
    · exfalso
      have hr : authRequired decode secret now h
          = .reject ⟨401, "Unauthorized", some "No token provided"⟩ := by
        simp [authRequired, heb]
      rw [hr] at hu
      exact AuthDecision.noConfusion hu
    · rcases hv : jwtVerify (decode raw) secret now with e | p
      · exfalso
        have hr : ∃ r, authRequired decode secret now h = .reject r := by
          rcases e with _ | _ | _
          · exact ⟨⟨401, "Token expired", some "Please login again"⟩,
              by simp [authRequired, heb, hv]⟩
          · exact ⟨⟨401, "Invalid token", some "Token is malformed"⟩,
              by simp [authRequired, heb, hv]⟩
          · exact ⟨⟨401, "Invalid token", some "Token verification failed"⟩,
              by simp [authRequired, heb, hv]⟩
        obtain ⟨r, hr⟩ := hr
        rw [hr] at hu
        exact AuthDecision.noConfusion hu
      · by_cases h0 : p.userId = 0
        · exfalso
          have hr : authRequired decode secret now h
              = .reject ⟨401, "Invalid token", some "Token payload is invalid"⟩ := by
            simp [authRequired, heb, hv, h0]
          rw [hr] at hu
          exact AuthDecision.noConfusion hu
        · have hr : authRequired decode secret now h
              = .proceed ⟨p.userId, p.username⟩ := by
            simp [authRequired, heb, hv, h0]
          rw [hr] at hu
          refine ⟨raw, p, rfl, hv, ?_⟩
          cases hu
          rfl

/-- Witness for C3: every case exercised with the sample decoder — missing
header, the bare `Bearer ` header whose empty credential counts as no
token, expired `tokA` at time 100, malformed junk, undecodable `weird`,
and a successful verification attaching user 1. -/
theorem claim_C3_authRequired_error_mapping_witness :
    (extractBearer none = none ∧
      authRequired sampleDecode "secret" 0 none
        = .reject ⟨401, "Unauthorized", some "No token provided"⟩) ∧
    (extractBearer (some "Bearer ") = none ∧
      authRequired sampleDecode "secret" 0 (some "Bearer ")
        = .reject ⟨401, "Unauthorized", some "No token provided"⟩) ∧
    (extractBearer (some "Bearer tokA") = some "tokA" ∧
      sampleDecode "tokA" = .signed ⟨1, "alice", 100⟩ "secret" ∧
      (100 : Nat) ≤ 100 ∧
      authRequired sampleDecode "secret" 100 (some "Bearer tokA")
        = .reject ⟨401, "Token expired", some "Please login again"⟩) ∧
    (extractBearer (some "Bearer junk") = some "junk" ∧
      jwtVerify (sampleDecode "junk") "secret" 0 = .error .jsonWebToken ∧
      authRequired sampleDecode "secret" 0 (some "Bearer junk")
        = .reject ⟨401, "Invalid token", some "Token is malformed"⟩) ∧
    (extractBearer (some "Bearer weird") = some "weird" ∧
      jwtVerify (sampleDecode "weird") "secret" 0 = .error .unexpected ∧
      authRequired sampleDecode "secret" 0 (some "Bearer weird")
        = .reject ⟨401, "Invalid token", some "Token verification failed"⟩) ∧
    (authRequired sampleDecode "secret" 0 (some "Bearer tokA")
        = .proceed ⟨1, "alice"⟩ ∧
      ∃ raw p, extractBearer (some "Bearer tokA") = some raw ∧
        jwtVerify (sampleDecode raw) "secret" 0 = .ok p ∧
        (Identity.mk 1 "alice") = ⟨p.userId, p.username⟩) :=
  ⟨⟨by rfl,
    (claim_C3_authRequired_error_mapping sampleDecode "secret" 0).1 none (by rfl)⟩,
   ⟨by rfl,
    (claim_C3_authRequired_error_mapping sampleDecode "secret" 0).1
      (some "Bearer ") (by rfl)⟩,
   ⟨by decide, by rfl, by decide,
    (claim_C3_authRequired_error_mapping sampleDecode "secret" 100).2.1
      (some "Bearer tokA") "tokA" ⟨1, "alice", 100⟩ (by decide) (by rfl) (by decide)⟩,
   ⟨by decide, by rfl,
    (claim_C3_authRequired_error_mapping sampleDecode "secret" 0).2.2.1
      (some "Bearer junk") "junk" (by decide) (by rfl)⟩,
   ⟨by decide, by rfl,
    (claim_C3_authRequired_error_mapping sampleDecode "secret" 0).2.2.2.1
      (some "Bearer weird") "weird" (by decide) (by rfl)⟩,
   ⟨by decide,
    (claim_C3_authRequired_error_mapping sampleDecode "secret" 0).2.2.2.2.1
      (some "Bearer tokA") ⟨1, "alice"⟩ (by decide)⟩⟩

/-- C6: registration succeeds exactly once: with a username of length ≥ 3, a
password of length ≥ 6 and no existing user of that name, registration
returns a token and the created user and inserts the row; a second
registration with the same username (and any valid password) yields 409
Conflict and leaves the store unchanged. -/
theorem claim_C6_register_once_then_conflict
    (store : UserStore) (un pw pw₂ secret : String) (now now₂ : Nat)
    (hun : 3 ≤ un.length) (hpw : 6 ≤ pw.length) (hpw₂ : 6 ≤ pw₂.length)
    (hfresh : ∀ u ∈ store.users, u.username ≠ un) :
    (registerUser store (some un) (some pw) secret now).2
      = .ok (jwtSign store.nextId un secret now)
          ⟨store.nextId, un, bcryptHash pw 10, true⟩ ∧
    (⟨store.nextId, un, bcryptHash pw 10, true⟩ : User)
      ∈ (registerUser store (some un) (some pw) secret now).1.users ∧
    (registerUser (registerUser store (some un) (some pw) secret now).1
        (some un) (some pw₂) secret now₂).2
      = .err 409 "Username already exists" ∧
    (registerUser (registerUser store (some un) (some pw) secret now).1
        (some un) (some pw₂) secret now₂).1
      = (registerUser store (some un) (some pw) secret now).1 := by
  have hun' : un ≠ "" := by
    intro h; rw [h] at hun; simp at hun
  have hpw' : pw ≠ "" := by
    intro h; rw [h] at hpw; simp at hpw
  have hpw₂' : pw₂ ≠ "" := by
    intro h; rw [h] at hpw₂; simp at hpw₂
  have h3 : ¬ un.length < 3 := by omega
  have h6 : ¬ pw.length < 6 := by omega
  have h6' : ¬ pw₂.length < 6 := by omega
  have hany : store.users.any (fun u => u.username = un) = false := by
    simp only [List.any_eq_false, decide_eq_true_eq]
    exact hfresh
  have hr₁ : registerUser store (some un) (some pw) secret now
      = (⟨store.users ++ [⟨store.nextId, un, bcryptHash pw 10, true⟩],
          store.nextId + 1⟩,
         .ok (jwtSign store.nextId un secret now)
           ⟨store.nextId, un, bcryptHash pw 10, true⟩) := by
    simp [registerUser, hun', hpw', h3, h6, hany]
  have hany₂ : (store.users ++ [⟨store.nextId, un, bcryptHash pw 10, true⟩] :
      List User).any (fun u => u.username = un) = true := by
    simp
  refine ⟨by rw [hr₁], by rw [hr₁]; simp, ?_, ?_⟩
  · rw [hr₁]
    simp [registerUser, hun', hpw₂', h3, h6', hany₂]
  · rw [hr₁]
    simp [registerUser, hun', hpw₂', h3, h6', hany₂]

/-- Witness for C6: registering "alice"/"secret1" into the empty store, then
again with the same username. -/
theorem claim_C6_register_once_then_conflict_witness :
    (3 : Nat) ≤ ("alice" : String).length ∧
    (6 : Nat) ≤ ("secret1" : String).length ∧
    ((registerUser ⟨[], 1⟩ (some "alice") (some "secret1") "secret" 0).2
      = .ok (jwtSign 1 "alice" "secret" 0) ⟨1, "alice", bcryptHash "secret1" 10, true⟩ ∧
     (⟨1, "alice", bcryptHash "secret1" 10, true⟩ : User)
      ∈ (registerUser ⟨[], 1⟩ (some "alice") (some "secret1") "secret" 0).1.users ∧
     (registerUser (registerUser ⟨[], 1⟩ (some "alice") (some "secret1") "secret" 0).1
        (some "alice") (some "secret2") "secret" 5).2
      = .err 409 "Username already exists" ∧
     (registerUser (registerUser ⟨[], 1⟩ (some "alice") (some "secret1") "secret" 0).1
        (some "alice") (some "secret2") "secret" 5).1
      = (registerUser ⟨[], 1⟩ (some "alice") (some "secret1") "secret" 0).1) :=
  ⟨by decide, by decide,
   claim_C6_register_once_then_conflict ⟨[], 1⟩ "alice" "secret1" "secret2"
     "secret" 0 5 (by decide) (by decide) (by decide) (by simp)⟩

/-- C9: password reset requires no credentials: for any existing (nonempty)
username and any new password of length ≥ 6, the reset succeeds, replaces
the hash of every user of that username and keeps all other users
untouched, and its outcome is identical under every authorization header —
the route never reads credentials. -/
theorem claim_C9_reset_password_unauthenticated
    (store : UserStore) (header : Option String) (un np : String)
    (hun : un ≠ "") (hnp : 6 ≤ np.length)
    (hex : ∃ u ∈ store.users, u.username = un) :
    (resetPassword store header (some un) (some np)).2 = .ok ∧
    (∀ u ∈ store.users, u.username = un →
      ({ u with password_hash := bcryptHash np 10 } : User)
        ∈ (resetPassword store header (some un) (some np)).1.users) ∧
    (∀ u ∈ store.users, u.username ≠ un →
      u ∈ (resetPassword store header (some un) (some np)).1.users) ∧
    (∀ header₂, resetPassword store header₂ (some un) (some np)
      = resetPassword store header (some un) (some np)) := by
  have hnp' : np ≠ "" := by
    intro h; rw [h] at hnp; simp at hnp
  have h6 : ¬ np.length < 6 := by omega
  have hany : store.users.any (fun u => u.username = un) = true := by
    simp only [List.any_eq_true, decide_eq_true_eq]
    exact hex
  have hr : resetPassword store header (some un) (some np)
      = (⟨store.users.map (fun u =>
            if u.username = un then { u with password_hash := bcryptHash np 10 }
            else u), store.nextId⟩, .ok) := by
    simp [resetPassword, hun, hnp', h6, hany]
  refine ⟨by rw [hr], ?_, ?_, fun header₂ => by rw [hr]; simp [resetPassword, hun, hnp', h6, hany]⟩
  · intro u hu hname
    rw [hr]
    simp only []
    refine List.mem_map.mpr ⟨u, hu, ?_⟩
    rw [if_pos hname]
  · intro u hu hname
    rw [hr]
    simp only []
    refine List.mem_map.mpr ⟨u, hu, ?_⟩
    rw [if_neg hname]

/-- Witness for C9: resetting "alice"'s password with no header present. -/
theorem claim_C9_reset_password_unauthenticated_witness :
    ("alice" : String) ≠ "" ∧ (6 : Nat) ≤ ("newpass1" : String).length ∧
    (∃ u ∈ [(⟨1, "alice", "oldhash", true⟩ : User)], u.username = "alice") ∧
    ((resetPassword ⟨[⟨1, "alice", "oldhash", true⟩], 2⟩ none
        (some "alice") (some "newpass1")).2 = .ok ∧
     (∀ u ∈ [(⟨1, "alice", "oldhash", true⟩ : User)], u.username = "alice" →
       ({ u with password_hash := bcryptHash "newpass1" 10 } : User)
        ∈ (resetPassword ⟨[⟨1, "alice", "oldhash", true⟩], 2⟩ none
            (some "alice") (some "newpass1")).1.users) ∧
     (∀ u ∈ [(⟨1, "alice", "oldhash", true⟩ : User)], u.username ≠ "alice" →
       u ∈ (resetPassword ⟨[⟨1, "alice", "oldhash", true⟩], 2⟩ none
            (some "alice") (some "newpass1")).1.users) ∧
     (∀ header₂, resetPassword ⟨[⟨1, "alice", "oldhash", true⟩], 2⟩ header₂
        (some "alice") (some "newpass1")
      = resetPassword ⟨[⟨1, "alice", "oldhash", true⟩], 2⟩ none
        (some "alice") (some "newpass1"))) :=
  ⟨by decide, by decide, ⟨⟨1, "alice", "oldhash", true⟩, by simp⟩,
   claim_C9_reset_password_unauthenticated ⟨[⟨1, "alice", "oldhash", true⟩], 2⟩
     none "alice" "newpass1" (by decide) (by decide)
     ⟨⟨1, "alice", "oldhash", true⟩, by simp⟩⟩

/-- C8: when a realtime connection submits a token that fails verification,
the handler emits exactly one `auth_error` acknowledgement to that socket
only (no broadcasts), leaves the room membership unchanged, does not close
the connection, and a subsequent `authenticate` on the same connection
behaves exactly as if the failed attempt had never happened. -/
theorem claim_C8_socket_auth_failure
    (decode : String → TokenStr) (secret : String) (now : Nat)
    (c : Conn) (tk : String) (e : VerifyError)
    (hv : jwtVerify (decode tk) secret now = .error e) :
    authenticateHandler decode secret now c tk
      = ⟨c, [⟨"auth_error", .err "Invalid token"⟩], [], false⟩ ∧
    (∀ tk₂ now₂, authenticateHandler decode secret now₂
        (authenticateHandler decode secret now c tk).conn tk₂
      = authenticateHandler decode secret now₂ c tk₂) := by
  have h1 : authenticateHandler decode secret now c tk
      = ⟨c, [⟨"auth_error", .err "Invalid token"⟩], [], false⟩ := by
    simp [authenticateHandler, hv]
  exact ⟨h1, fun tk₂ now₂ => by rw [h1]⟩

/-- Witness for C8: a connection already in some room submits unparsable
junk; the state is untouched and a later valid authenticate still works. -/
theorem claim_C8_socket_auth_failure_witness :
    jwtVerify (sampleDecode "junk") "secret" 0 = .error .jsonWebToken ∧
    (authenticateHandler sampleDecode "secret" 0 ⟨["user-9"]⟩ "junk"
      = ⟨⟨["user-9"]⟩, [⟨"auth_error", .err "Invalid token"⟩], [], false⟩ ∧
     (∀ tk₂ now₂, authenticateHandler sampleDecode "secret" now₂
        (authenticateHandler sampleDecode "secret" 0 ⟨["user-9"]⟩ "junk").conn tk₂
      = authenticateHandler sampleDecode "secret" now₂ ⟨["user-9"]⟩ tk₂)) :=
  ⟨by rfl,
   claim_C8_socket_auth_failure sampleDecode "secret" 0 ⟨["user-9"]⟩ "junk"
     .jsonWebToken (by rfl)⟩

/-- C7 fails as stated: a connection that authenticates with user 1's token
and then with user 2's token belongs to two broadcast channels at once
(`socket.join` accumulates rooms and nothing leaves the previous one). -/
theorem claim_C7_counterexample :
    (runAuthSeq sampleDecode "secret" 0 ⟨[]⟩ ["tokA", "tokB"]).rooms
      = [roomName 1, roomName 2] ∧
    ¬ (runAuthSeq sampleDecode "secret" 0 ⟨[]⟩ ["tokA", "tokB"]).rooms.length ≤ 1 := by
  exact ⟨by decide, by decide⟩

/-- C7 amended: a fresh realtime connection that sends at most one
authenticate action belongs to at most one user broadcast channel. -/
theorem claim_C7_amended_at_most_one_channel
    (decode : String → TokenStr) (secret : String) (now : Nat)
    (msgs : List String) (hlen : msgs.length ≤ 1) :
    (runAuthSeq decode secret now ⟨[]⟩ msgs).rooms.length ≤ 1 := by
  cases msgs with
  | nil => simp [runAuthSeq]
  | cons tk rest =>
    cases rest with
    | cons tk₂ rest₂ => simp at hlen
    | nil =>
      rcases hv : jwtVerify (decode tk) secret now with e | p
      · simp [runAuthSeq, authenticateHandler, hv]
      · simp [runAuthSeq, authenticateHandler, hv, joinRoom]

/-- Witness for C7 amended: a single successful authenticate joins one
channel. -/
theorem claim_C7_amended_at_most_one_channel_witness :
    ((["tokA"] : List String).length ≤ 1) ∧
    (runAuthSeq sampleDecode "secret" 0 ⟨[]⟩ ["tokA"]).rooms.length ≤ 1 :=
  ⟨by decide,
   claim_C7_amended_at_most_one_channel sampleDecode "secret" 0 ["tokA"] (by decide)⟩

/-- Every broadcast emitted by a mutating task operation is addressed to the
acting user's room. -/
theorem runTaskOp_emission_room (u : Identity) (now : Nat) (op : TaskOp)
    (store : TaskStore) :
    ∀ e ∈ (runTaskOp u now op store).2.2, e.room = roomName u.id := by
  intro e he
  cases op with
  | create body =>
    rcases ht : body.title with _ | ttl
    · simp [runTaskOp, createTask, ht] at he
    · by_cases htr : ttl.trim = ""
      · simp [runTaskOp, createTask, ht, htr] at he
      · simp [runTaskOp, createTask, ht, htr] at he
        rw [he]
  | update id body =>
    by_cases hb : body.isEmpty
    · simp [runTaskOp, updateTask, hb] at he
    · rcases hf : store.rows.find? (fun t => t.id = id && t.user_id = some u.id)
        with _ | t
      · simp [runTaskOp, updateTask, hb, hf] at he
      · simp [runTaskOp, updateTask, hb, hf] at he
        rw [he]
  | delete id =>
    simp only [runTaskOp, deleteTask] at he
    split at he
    · simp at he
    · simp at he
      rw [he]
  | clearCompleted => simp [runTaskOp, clearCompleted] at he
  | markAllDone => simp [runTaskOp, markAllDone] at he

/-- C1: channel isolation: for distinct users A and B, a fresh realtime
connection that authenticates with A's valid token — thereby joining A's
channel — receives every event emitted by A's mutating task operations,
receives an emission only when it is addressed to A's room, and never
receives an event emitted for an operation of B. -/
theorem claim_C1_channel_isolation
    (decode : String → TokenStr) (secret : String) (now : Nat)
    (a b expA : Nat) (na nb : String) (tokA : String)
    (hdec : decode tokA = .signed ⟨a, na, expA⟩ secret)
    (hfresh : now < expA) (hab : a ≠ b) :
    ∀ (nowOp : Nat) (op : TaskOp) (store : TaskStore),
      (∀ e ∈ (runTaskOp ⟨a, na⟩ nowOp op store).2.2,
        receives (authenticateHandler decode secret now ⟨[]⟩ tokA).conn e = true) ∧
      (∀ e : Emission,
        receives (authenticateHandler decode secret now ⟨[]⟩ tokA).conn e = true →
        e.room = roomName a) ∧
      (∀ e ∈ (runTaskOp ⟨b, nb⟩ nowOp op store).2.2,
        receives (authenticateHandler decode secret now ⟨[]⟩ tokA).conn e = false) := by
  have hconn : (authenticateHandler decode secret now ⟨[]⟩ tokA).conn
      = ⟨[roomName a]⟩ := by
    have hv : jwtVerify (decode tokA) secret now = .ok ⟨a, na, expA⟩ := by
      rw [hdec]
      show (if secret = secret then
              if expA ≤ now then Except.error VerifyError.tokenExpired
              else Except.ok (Payload.mk a na expA)
            else Except.error VerifyError.jsonWebToken)
          = Except.ok (Payload.mk a na expA)
      rw [if_pos rfl, if_neg (by omega)]
    simp [authenticateHandler, hv, joinRoom]
  intro nowOp op store
  refine ⟨?_, ?_, ?_⟩
  · intro e he
    have hroom := runTaskOp_emission_room ⟨a, na⟩ nowOp op store e he
    rw [hconn, receives, hroom]
    simp
  · intro e hrec
    rw [hconn, receives] at hrec
    simpa using hrec.symm
  · intro e he
    have hroom := runTaskOp_emission_room ⟨b, nb⟩ nowOp op store e he
    rw [hconn, receives, hroom]
    simp only [List.contains_cons, List.contains_nil, Bool.or_false]
    simp only [beq_eq_false_iff_ne, ne_eq]
    intro hcontra
    exact hab (roomName_inj hcontra.symm)

/-- Witness for C1: user 1's fresh connection, with user 2 as the other
party, over a delete operation on the sample store. -/
theorem claim_C1_channel_isolation_witness :
    sampleDecode "tokA" = .signed ⟨1, "alice", 100⟩ "secret" ∧
    (0 : Nat) < 100 ∧ (1 : Nat) ≠ 2 ∧
    ((∀ e ∈ (runTaskOp ⟨1, "alice"⟩ 0 (.delete 1) sampleStore).2.2,
        receives (authenticateHandler sampleDecode "secret" 0 ⟨[]⟩ "tokA").conn e
          = true) ∧
     (∀ e : Emission,
        receives (authenticateHandler sampleDecode "secret" 0 ⟨[]⟩ "tokA").conn e
          = true → e.room = roomName 1) ∧
     (∀ e ∈ (runTaskOp ⟨2, "bob"⟩ 0 (.delete 1) sampleStore).2.2,
        receives (authenticateHandler sampleDecode "secret" 0 ⟨[]⟩ "tokA").conn e
          = false)) :=
  ⟨by rfl, by decide, by decide,
   claim_C1_channel_isolation sampleDecode "secret" 0 1 2 100 "alice" "bob"
     "tokA" (by rfl) (by decide) (by decide) 0 (.delete 1) sampleStore⟩

/-- C5 fails as stated: `POST /tasks/clear-completed` run by user 1 on a
store holding one of their done tasks succeeds at the storage layer — the
row is deleted — yet publishes no event at all, not exactly one. -/
theorem claim_C5_counterexample :
    (runTaskOp ⟨1, "alice"⟩ 0 .clearCompleted sampleStore).1 = ⟨[taskB], 3⟩ ∧
    (runTaskOp ⟨1, "alice"⟩ 0 .clearCompleted sampleStore).1 ≠ sampleStore ∧
    (runTaskOp ⟨1, "alice"⟩ 0 .clearCompleted sampleStore).2.1 = .success ∧
    (runTaskOp ⟨1, "alice"⟩ 0 .clearCompleted sampleStore).2.2 = [] :=
  ⟨by decide, by decide, by decide, by decide⟩

/-- C5 amended: each single-task mutating endpoint (`POST /tasks`,
`PUT /tasks/:id`, `DELETE /tasks/:id`) publishes, on storage success,
exactly one corresponding event into the acting user's channel and nothing
on failure; every published event reaches every connection in that channel;
and the bulk endpoints clear-completed and mark-all-done never publish any
event. -/
theorem claim_C5_amended_one_event_per_single_task_op
    (u : Identity) (now : Nat) (store : TaskStore) :
    (∀ body t, (createTask u body now store).2.1 = .task t →
      (createTask u body now store).2.2
        = [⟨roomName u.id, "task_created", .task t⟩]) ∧
    (∀ body st er, (createTask u body now store).2.1 = .failure st er →
      (createTask u body now store).2.2 = []
        ∧ (createTask u body now store).1 = store) ∧
    (∀ id body t, (updateTask u id body now store).2.1 = .task t →
      (updateTask u id body now store).2.2
        = [⟨roomName u.id, "task_updated", .task t⟩]) ∧
    (∀ id body st er, (updateTask u id body now store).2.1 = .failure st er →
      (updateTask u id body now store).2.2 = []
        ∧ (updateTask u id body now store).1 = store) ∧
    (∀ id, (deleteTask u id store).2.1 = .success →
      (deleteTask u id store).2.2
        = [⟨roomName u.id, "task_deleted", .deletedId id⟩]) ∧
    (∀ id st er, (deleteTask u id store).2.1 = .failure st er →
      (deleteTask u id store).2.2 = [] ∧ (deleteTask u id store).1 = store) ∧
    ((clearCompleted u store).2.2 = [] ∧ (markAllDone u now store).2.2 = []) ∧
    (∀ op, ∀ e ∈ (runTaskOp u now op store).2.2,
      ∀ c : Conn, c.rooms.contains (roomName u.id) = true →
        receives c e = true) := by
  refine ⟨?_, ?_, ?_, ?_, ?_, ?_, ⟨rfl, rfl⟩, ?_⟩
  · intro body t hres
    rcases ht : body.title with _ | ttl
    · simp [createTask, ht] at hres
    · by_cases htr : ttl.trim = ""
      · simp [createTask, ht, htr] at hres
      · simp only [createTask, ht, htr, if_neg, ite_false] at hres ⊢
        simp at hres ⊢
        exact hres
  · intro body st er hres
    rcases ht : body.title with _ | ttl
    · simp [createTask, ht]
    · by_cases htr : ttl.trim = ""
      · simp [createTask, ht, htr]
      · simp [createTask, ht, htr] at hres
  · intro id body t hres
    by_cases hb : body.isEmpty
    · simp [updateTask, hb] at hres
    · rcases hf : store.rows.find? (fun x => x.id = id && x.user_id = some u.id)
        with _ | x
      · simp [updateTask, hb, hf] at hres
      · simp only [updateTask, hb, hf] at hres ⊢
        simp at hres ⊢
        exact hres
  · intro id body st er hres
    by_cases hb : body.isEmpty
    · simp [updateTask, hb]
    · rcases hf : store.rows.find? (fun x => x.id = id && x.user_id = some u.id)
        with _ | x
      · simp [updateTask, hb, hf]
      · simp [updateTask, hb, hf] at hres
  · intro id hres
    simp only [deleteTask] at hres ⊢
    by_cases hcond : (store.rows.filter
        (fun t => !(t.id = id && t.user_id = some u.id))).length
        = store.rows.length
    · rw [if_pos hcond] at hres
      simp at hres
    · rw [if_neg hcond]
  · intro id st er hres
    simp only [deleteTask] at hres ⊢
    by_cases hcond : (store.rows.filter
        (fun t => !(t.id = id && t.user_id = some u.id))).length
        = store.rows.length
    · rw [if_pos hcond]
      exact ⟨rfl, rfl⟩
    · rw [if_neg hcond] at hres
      simp at hres
  · intro op e he c hc
    have hroom := runTaskOp_emission_room u now op store e he
    rw [receives, hroom]
    exact hc

/-- Witness for C5 amended: deleting task 1 as user 1 emits exactly the one
`task_deleted` event; clear-completed emits nothing. -/
theorem claim_C5_amended_one_event_per_single_task_op_witness :
    ((deleteTask ⟨1, "alice"⟩ 1 sampleStore).2.1 = .success ∧
      (deleteTask ⟨1, "alice"⟩ 1 sampleStore).2.2
        = [⟨roomName 1, "task_deleted", .deletedId 1⟩]) ∧
    (clearCompleted ⟨1, "alice"⟩ sampleStore).2.2 = [] :=
  ⟨⟨by decide,
    (claim_C5_amended_one_event_per_single_task_op ⟨1, "alice"⟩ 0
      sampleStore).2.2.2.2.1 1 (by decide)⟩,
   (claim_C5_amended_one_event_per_single_task_op ⟨1, "alice"⟩ 0
      sampleStore).2.2.2.2.2.2.1.1⟩

/-- C2 fails as stated: `GET /tasks` reads user-scoped rows under the
Optional policy, not Required; an unauthenticated request attaches no
identity, the query gets no user-id constraint, and user 2's row is
returned to a caller who is not user 2. -/
theorem claim_C2_counterexample :
    authOptional sampleDecode "secret" 0 none = none ∧
    taskB.user_id = some 2 ∧
    taskB ∈ getTasksRoute sampleDecode "secret" 0 none {} sampleStore := by
  refine ⟨rfl, rfl, ?_⟩
  have hmem : taskB ∈ sampleStore.rows.filter (matchesQuery none {}) := by decide
  exact List.mem_mergeSort.mpr hmem

/-- C2 amended: every mutating task route is gated by `authRequired` (a
rejection returns the 401 and touches neither storage nor the socket
layer); every mutating operation leaves rows of other users untouched; and
`GET /tasks` constrains the query by the caller's user id exactly when an
identity is attached — rows it returns to an authenticated caller are all
the caller's own. -/
theorem claim_C2_amended_tenant_isolation :
    (∀ decode secret now header op store r,
      authRequired decode secret now header = .reject r →
      runTaskRoute decode secret now header op store
        = (store, .failure r.status r.error, [])) ∧
    (∀ (u : Identity) (now : Nat) (op : TaskOp) (store : TaskStore) (t : Task),
      t.user_id ≠ some u.id →
      (t ∈ (runTaskOp u now op store).1.rows ↔ t ∈ store.rows)) ∧
    (∀ (u : Identity) (qp : TasksQuery) (store : TaskStore) (t : Task),
      t ∈ getTasks (some u) qp store → t.user_id = some u.id) := by
  refine ⟨?_, ?_, ?_⟩
  · intro decode secret now header op store r hr
    simp [runTaskRoute, hr]
  · intro u now op store t hneq
    cases op with
    | create body =>
      rcases ht : body.title with _ | ttl
      · simp [runTaskOp, createTask, ht]
      · by_cases htr : ttl.trim = ""
        · simp [runTaskOp, createTask, ht, htr]
        · simp only [runTaskOp, createTask, ht, htr, if_neg, ite_false]
          constructor
          · intro h
            rcases List.mem_append.mp h with h | h
            · exact h
            · simp at h
              rw [h] at hneq
              simp at hneq
          · intro h
            exact List.mem_append_left _ h
    | update id body =>
      by_cases hb : body.isEmpty
      · simp [runTaskOp, updateTask, hb]
      · rcases hf : store.rows.find? (fun x => x.id = id && x.user_id = some u.id)
          with _ | x
        · simp [runTaskOp, updateTask, hb, hf]
        · simp only [runTaskOp, updateTask, hb, hf]
          constructor
          · intro h
            obtain ⟨y, hy, hfy⟩ := List.mem_map.mp h
            by_cases hcond : (y.id = id && y.user_id = some u.id) = true
            · rw [if_pos hcond] at hfy
              exfalso
              simp only [Bool.and_eq_true, decide_eq_true_eq] at hcond
              have hyu : (applyPatch body now y).user_id = y.user_id := rfl
              rw [← hfy] at hneq
              rw [hyu, hcond.2] at hneq
              exact hneq rfl
            · rw [if_neg hcond] at hfy
              rw [← hfy]
              exact hy
          · intro h
            refine List.mem_map.mpr ⟨t, h, ?_⟩
            have hcond : (t.id = id && t.user_id = some u.id) = false := by
              simp [hneq]
            rw [if_neg (by simp [hcond])]
    | delete id =>
      simp only [runTaskOp, deleteTask]
      split
      · rfl
      · simp only []
        constructor
        · intro h
          exact (List.mem_filter.mp h).1
        · intro h
          refine List.mem_filter.mpr ⟨h, ?_⟩
          simp [hneq]
    | clearCompleted =>
      simp only [runTaskOp, clearCompleted]
      constructor
      · intro h
        exact (List.mem_filter.mp h).1
      · intro h
        refine List.mem_filter.mpr ⟨h, ?_⟩
        simp [hneq]
    | markAllDone =>
      simp only [runTaskOp, markAllDone]
      constructor
      · intro h
        obtain ⟨y, hy, hfy⟩ := List.mem_map.mp h
        by_cases hcond : (!(y.status = "done") && y.user_id = some u.id) = true
        · rw [if_pos hcond] at hfy
          exfalso
          simp only [Bool.and_eq_true, decide_eq_true_eq] at hcond
          rw [← hfy] at hneq
          exact hneq (by simpa using hcond.2)
        · rw [if_neg hcond] at hfy
          rw [← hfy]
          exact hy
      · intro h
        refine List.mem_map.mpr ⟨t, h, ?_⟩
        have hcond : (!(t.status = "done") && t.user_id = some u.id) = false := by
          simp [hneq]
        rw [if_neg (by simp [hcond])]
  · intro u qp store t ht
    have hmem := List.mem_filter.mp (List.mem_mergeSort.mp ht)
    have hq := hmem.2
    rw [matchesQuery] at hq
    simp only [Bool.and_eq_true, decide_eq_true_eq] at hq
    exact hq.1.1.1.1.1.1.1

/-- Witness for C2 amended: a rejected request leaves the sample store
untouched; user 2's row survives user 1's delete of it; an authenticated
query returns only own rows. -/
theorem claim_C2_amended_tenant_isolation_witness :
    (authRequired sampleDecode "secret" 0 none
        = .reject ⟨401, "Unauthorized", some "No token provided"⟩ ∧
      runTaskRoute sampleDecode "secret" 0 none (.delete 2) sampleStore
        = (sampleStore, .failure 401 "Unauthorized", [])) ∧
    (taskB.user_id ≠ some 1 ∧
      (taskB ∈ (runTaskOp ⟨1, "alice"⟩ 0 (.delete 2) sampleStore).1.rows
        ↔ taskB ∈ sampleStore.rows)) ∧
    taskA.user_id = some 1 :=
  ⟨⟨by decide,
    claim_C2_amended_tenant_isolation.1 sampleDecode "secret" 0 none
      (.delete 2) sampleStore ⟨401, "Unauthorized", some "No token provided"⟩
      (by decide)⟩,
   ⟨by decide,
    claim_C2_amended_tenant_isolation.2.1 ⟨1, "alice"⟩ 0 (.delete 2)
      sampleStore taskB (by decide)⟩,
   claim_C2_amended_tenant_isolation.2.2 ⟨1, "alice"⟩ {} sampleStore taskA
     (List.mem_mergeSort.mpr (by decide))⟩

/-- C10: an unauthenticated `GET /tasks` — no bearer token, or a token that
fails verification — succeeds, and its query carries no user-id constraint:
the response holds exactly the rows matching the other filters, across
every user in the store. -/
theorem claim_C10_unauthenticated_get_tasks
    (decode : String → TokenStr) (secret : String) (now : Nat)
    (header : Option String) (qp : TasksQuery) (store : TaskStore)
    (hnoid : extractBearer header = none ∨
      ∃ raw e, extractBearer header = some raw ∧
        jwtVerify (decode raw) secret now = .error e) :
    ∀ t, t ∈ getTasksRoute decode secret now header qp store
      ↔ (t ∈ store.rows ∧ matchesQuery none qp t = true) := by
  have hid : authOptional decode secret now header = none := by
    rcases hnoid with h | ⟨raw, e, h1, h2⟩
    · simp [authOptional, h]
    · simp [authOptional, h1, h2]
  have hset : getTasksRoute decode secret now header qp store
      = (store.rows.filter (matchesQuery none qp)).mergeSort (taskSortLe qp) := by
    unfold getTasksRoute getTasks
    rw [hid]
  intro t
  rw [hset]
  constructor
  · intro ht
    exact List.mem_filter.mp (List.mem_mergeSort.mp ht)
  · rintro ⟨h1, h2⟩
    exact List.mem_mergeSort.mpr (List.mem_filter.mpr ⟨h1, h2⟩)

/-- Witness for C10: with no authorization header, the sample-store query
returns user 2's row to the unauthenticated caller. -/
theorem claim_C10_unauthenticated_get_tasks_witness :
    (extractBearer none = none ∨
      ∃ raw e, extractBearer none = some raw ∧
        jwtVerify (sampleDecode raw) "secret" 0 = .error e) ∧
    (taskB ∈ getTasksRoute sampleDecode "secret" 0 none {} sampleStore
      ↔ (taskB ∈ sampleStore.rows ∧ matchesQuery none {} taskB = true)) :=
  ⟨Or.inl rfl,
   claim_C10_unauthenticated_get_tasks sampleDecode "secret" 0 none {}
     sampleStore (Or.inl rfl) taskB⟩

end TodoBackend
